import Mathlib

set_option maxHeartbeats 1000000

/-!
Shallow embedding of the locator-generation module
(`src/content/locator-generator.ts`) of the Smart-QA-Recorder repository.

The file holds two variants of the `LocatorGenerator` object: the first
exports `generateLocators` (three selector strings) and the second
exports `generateLocator` (a single playwright-style selector string).
Both share `inferRole`, `getLabelText` and `escape`, whose source text is
identical in the two variants.

JavaScript strings are modelled as Lean `String`s (lists of characters);
nullable / possibly-undefined strings as `Option String`, with JS
truthiness (`null`, `undefined` and `""` are falsy) modelled by `truthyS`.
The DOM reads performed by `generateLocators` (attributes, `innerText`,
the `getLabelText` document lookup) are snapshotted into an
`ElementDescriptor` record, exactly the set of values the function reads.
-/

/-- The single-quote character (code 39). -/
def qc : Char := Char.ofNat 39

/-- The backslash character (code 92). -/
def bsl : Char := Char.ofNat 92

/-- JS whitespace test used by `String.prototype.trim` (ASCII part). -/
def jsWhite (c : Char) : Bool :=
  c == ' ' || c == '\t' || c == '\n' || c == '\r' || c == Char.ofNat 11 || c == Char.ofNat 12

/-- `str.replace(/c/g, r)` at the character-list level: every occurrence of
the character `c` is replaced by the character list `r`; the replacement
text is not rescanned, exactly as in JS `String.prototype.replace`. -/
def replaceCharList (c : Char) (r : List Char) : List Char → List Char
  | [] => []
  | a :: as => if a = c then r ++ replaceCharList c r as else a :: replaceCharList c r as

/-- `str.trim()` at the character-list level: drop whitespace from both ends. -/
def trimList (l : List Char) : List Char :=
  ((l.dropWhile jsWhite).reverse.dropWhile jsWhite).reverse

/-- `str.trim()` on strings. -/
def trimStr (s : String) : String := ⟨trimList s.data⟩

/-- `escape(str)` from the source:
`str.replace(/'/g, "\\'").replace(/\n/g, ' ').trim()` —
first each single-quote becomes backslash + quote, then each newline
becomes a space, then the result is trimmed. -/
def escape (s : String) : String :=
  ⟨trimList (replaceCharList '\n' [' '] (replaceCharList qc [bsl, qc] s.data))⟩

/-- `tagName.toLowerCase()` (character-wise lowering). -/
def lowerTag (s : String) : String := ⟨s.data.map Char.toLower⟩

/-- JS truthiness of a nullable string: `null`/`undefined` and `""` are falsy. -/
def truthyS : Option String → Bool
  | some s => s != ""
  | none => false

/-- JS `a || b` on nullable strings: `a` when truthy, else `b` (even if falsy). -/
def jsOrS (a b : Option String) : Option String := if truthyS a then a else b

/-- A value of the `roleMap` record in `inferRole`: either a role string or
the nested input-type table (an object). -/
inductive RoleMapEntry where
  | str : String → RoleMapEntry
  | table : RoleMapEntry
deriving DecidableEq

/-- The outer `roleMap` table of `inferRole`, in source order. -/
def roleMapList : List (String × RoleMapEntry) :=
  [("button", RoleMapEntry.str "button"),
   ("a", RoleMapEntry.str "link"),
   ("img", RoleMapEntry.str "img"),
   ("input", RoleMapEntry.table),
   ("select", RoleMapEntry.str "combobox"),
   ("textarea", RoleMapEntry.str "textbox"),
   ("h1", RoleMapEntry.str "heading"),
   ("h2", RoleMapEntry.str "heading"),
   ("h3", RoleMapEntry.str "heading"),
   ("h4", RoleMapEntry.str "heading"),
   ("h5", RoleMapEntry.str "heading"),
   ("h6", RoleMapEntry.str "heading")]

/-- The nested `roleMap.input` table of `inferRole`, in source order. -/
def inputRoleList : List (String × String) :=
  [("button", "button"),
   ("submit", "button"),
   ("checkbox", "checkbox"),
   ("radio", "radio"),
   ("text", "textbox"),
   ("email", "textbox"),
   ("password", "textbox"),
   ("search", "searchbox"),
   ("number", "spinbutton")]

/-- The JS value produced by `inferRole` (declared `string | null` in the
source, but `roleMap[tag]` can also be the nested input table object when
`tag === 'input'` and `type` is falsy). -/
inductive RoleResult where
  | str : String → RoleResult
  | table : RoleResult
  | null : RoleResult
deriving DecidableEq

/-- JS truthiness of a `RoleResult`: a non-empty string and the table
object are truthy, `null` is falsy. -/
def RoleResult.truthy : RoleResult → Bool
  | .str s => s != ""
  | .table => true
  | .null => false

/-- JS template-literal interpolation of a `RoleResult`. -/
def RoleResult.interp : RoleResult → String
  | .str s => s
  | .table => "[object Object]"
  | .null => "null"

/-- `inferRole(tagName, type?)` from the source:
lowercase the tag; for `input` with a truthy `type`, look the type up in
the nested table with default `'textbox'`; otherwise `roleMap[tag] || null`
(which yields the nested table object itself for `input` with falsy type). -/
def inferRole (tagName : String) (ty : Option String) : RoleResult :=
  let tag := lowerTag tagName
  if tag == "input" && truthyS ty then
    match inputRoleList.lookup (ty.getD "") with
    | some r => RoleResult.str r
    | none => RoleResult.str "textbox"
  else
    match roleMapList.lookup tag with
    | some (RoleMapEntry.str s) => RoleResult.str s
    | some RoleMapEntry.table => RoleResult.table
    | none => RoleResult.null

/-- JS `attr || roleResult`: the `role` attribute when truthy, else the
inferred role. -/
def jsOrRole (a : Option String) (b : RoleResult) : RoleResult :=
  match a with
  | some s => if s == "" then b else RoleResult.str s
  | none => b

/-- Snapshot of everything `generateLocators` / `generateLocator` reads
from the DOM element: `el.tagName`, `el.type`, `getAttribute('role')`,
`el.innerText`, `el.id`, `getAttribute('data-testid')`,
`getAttribute('data-test-id')`, `getAttribute('aria-label')`,
`el.placeholder`, `getLabelText(el)` (the document lookup, performed
before the pure selector-building step), `el.name`, and
`Array.from(el.classList)` in document order. `el.id` is always a string
in the DOM (empty when absent), hence a plain `String` field. -/
structure ElementDescriptor where
  tagName : String
  typeAttr : Option String
  roleAttr : Option String
  innerText : Option String
  id : String
  dataTestIdAttr : Option String
  dataTestIdDashAttr : Option String
  ariaLabel : Option String
  placeholder : Option String
  labelText : Option String
  name : Option String
  classList : List String
deriving DecidableEq

/-- Output record of `generateLocators`. -/
structure GeneratedLocators where
  playwright : String
  css : String
  xpath : String
deriving DecidableEq

/-- `const tagName = el.tagName.toLowerCase()`. -/
def tagOf (d : ElementDescriptor) : String := lowerTag d.tagName

/-- `const role = el.getAttribute('role') || this.inferRole(tagName, type)`. -/
def roleOf (d : ElementDescriptor) : RoleResult :=
  jsOrRole d.roleAttr (inferRole (tagOf d) d.typeAttr)

/-- `const text = el.innerText?.trim().substring(0, 50)`. -/
def textVal (d : ElementDescriptor) : Option String :=
  d.innerText.map (fun s => ⟨(trimList s.data).take 50⟩)

/-- `const dataTestId = el.getAttribute('data-testid') || el.getAttribute('data-test-id')`. -/
def dataTestIdOf (d : ElementDescriptor) : Option String :=
  jsOrS d.dataTestIdAttr d.dataTestIdDashAttr

/-- `const accessibleName = ariaLabel || labelText || text`. -/
def accNameOf (d : ElementDescriptor) : Option String :=
  jsOrS d.ariaLabel (jsOrS d.labelText (textVal d))

/-- `const escapedText = accessibleName ? this.escape(accessibleName) : ''`. -/
def escapedTextOf (d : ElementDescriptor) : String :=
  if truthyS (accNameOf d) then escape ((accNameOf d).getD "") else ""

/-- The playwright priority chain of `generateLocators` (first variant). -/
def playwrightOf (d : ElementDescriptor) : String :=
  if truthyS (dataTestIdOf d) then
    "page.getByTestId('" ++ (dataTestIdOf d).getD "" ++ "')"
  else if RoleResult.truthy (roleOf d) && truthyS (accNameOf d) then
    "page.getByRole('" ++ RoleResult.interp (roleOf d) ++ "', \x7b name: '" ++
      escapedTextOf d ++ "' \x7d)"
  else if ["input", "textarea", "select"].contains (tagOf d) && truthyS d.labelText then
    "page.getByLabel('" ++ escape (d.labelText.getD "") ++ "')"
  else if truthyS d.placeholder then
    "page.getByPlaceholder('" ++ escape (d.placeholder.getD "") ++ "')"
  else if d.id != "" then
    "page.locator('#" ++ d.id ++ "')"
  else if truthyS (textVal d) && decide (((textVal d).getD "").length > 0) then
    "page.getByText('" ++ escape ((textVal d).getD "") ++ "')"
  else if String.intercalate "." d.classList != "" then
    tagOf d ++ "." ++ String.intercalate "." d.classList
  else
    tagOf d

/-- The css priority chain of `generateLocators`. -/
def cssOf (d : ElementDescriptor) : String :=
  if d.id != "" then
    "#" ++ d.id
  else if truthyS (dataTestIdOf d) then
    "[data-testid=\"" ++ (dataTestIdOf d).getD "" ++ "\"]"
  else if truthyS d.dataTestIdDashAttr then
    "[data-test-id=\"" ++ d.dataTestIdDashAttr.getD "" ++ "\"]"
  else if truthyS d.name then
    tagOf d ++ "[name=\"" ++ d.name.getD "" ++ "\"]"
  else if truthyS d.placeholder then
    tagOf d ++ "[placeholder=\"" ++ d.placeholder.getD "" ++ "\"]"
  else if String.intercalate "." d.classList != "" then
    tagOf d ++ "." ++ String.intercalate "." d.classList
  else
    tagOf d

/-- The xpath priority chain of `generateLocators`; the value before the
chain is the default `//tagname`, kept when no condition fires. -/
def xpathOf (d : ElementDescriptor) : String :=
  if d.id != "" then
    "//*[@id='" ++ d.id ++ "']"
  else if truthyS (dataTestIdOf d) then
    "//*[@data-testid='" ++ (dataTestIdOf d).getD "" ++ "']"
  else if truthyS d.dataTestIdDashAttr then
    "//*[@data-test-id='" ++ d.dataTestIdDashAttr.getD "" ++ "']"
  else if truthyS (textVal d) && decide (((textVal d).getD "").length > 0) then
    "//" ++ tagOf d ++ "[contains(text(), '" ++ escape ((textVal d).getD "") ++ "')]"
  else if truthyS d.placeholder then
    "//" ++ tagOf d ++ "[@placeholder='" ++ d.placeholder.getD "" ++ "']"
  else if truthyS d.name then
    "//" ++ tagOf d ++ "[@name='" ++ d.name.getD "" ++ "']"
  else if decide (d.classList.length > 0) then
    "//" ++ tagOf d ++ "[@class='" ++ String.intercalate " " d.classList ++ "']"
  else
    "//" ++ tagOf d

/-- `generateLocators(el)` of the first variant: the three independently
computed selector strings. -/
def generateLocators (d : ElementDescriptor) : GeneratedLocators :=
  { playwright := playwrightOf d, css := cssOf d, xpath := xpathOf d }

/-- `generateLocator(el)` of the second variant: a single playwright-style
selector, with `this.escape(accessibleName)` applied inline in the role
branch (priorities 1-6 and the tag/class fallback, in source order). -/
def generateLocator (d : ElementDescriptor) : String :=
  if truthyS (dataTestIdOf d) then
    "page.getByTestId('" ++ (dataTestIdOf d).getD "" ++ "')"
  else if RoleResult.truthy (roleOf d) && truthyS (accNameOf d) then
    "page.getByRole('" ++ RoleResult.interp (roleOf d) ++ "', \x7b name: '" ++
      escape ((accNameOf d).getD "") ++ "' \x7d)"
  else if ["input", "textarea", "select"].contains (tagOf d) && truthyS d.labelText then
    "page.getByLabel('" ++ escape (d.labelText.getD "") ++ "')"
  else if truthyS d.placeholder then
    "page.getByPlaceholder('" ++ escape (d.placeholder.getD "") ++ "')"
  else if d.id != "" then
    "page.locator('#" ++ d.id ++ "')"
  else if truthyS (textVal d) && decide (((textVal d).getD "").length > 0) then
    "page.getByText('" ++ escape ((textVal d).getD "") ++ "')"
  else if String.intercalate "." d.classList != "" then
    tagOf d ++ "." ++ String.intercalate "." d.classList
  else
    tagOf d

/-- Follows the spec's words for the escaping rule (§4.1 String escaping),
independently of the source's `replace` chain: each single-quote becomes
an escaped single-quote (backslash + quote), each newline becomes a single
space, and the result is trimmed at both ends. -/
def escapeSpec (s : String) : String :=
  ⟨trimList ((s.data.flatMap (fun c => if c = qc then [bsl, qc] else [c])).map
      (fun c => if c = '\n' then ' ' else c))⟩

/-- Baseline concrete descriptor: a bare `div` with every optional field
absent, used as the starting point of concrete test inputs. -/
def emptyDiv : ElementDescriptor :=
  { tagName := "div", typeAttr := none, roleAttr := none, innerText := none,
    id := "", dataTestIdAttr := none, dataTestIdDashAttr := none, ariaLabel := none,
    placeholder := none, labelText := none, name := none, classList := [] }

theorem str_eq_empty_iff (s : String) : s = "" ↔ s.data = [] := String.ext_iff

theorem append_ne_empty_left (p a : String) (hp : p ≠ "") : p ++ a ≠ "" := by
  intro h
  rw [str_eq_empty_iff, String.data_append, List.append_eq_nil] at h
  exact hp ((str_eq_empty_iff p).mpr h.1)

theorem wrap_inj {p q a b : String} (h : p ++ a ++ q = p ++ b ++ q) : a = b := by
  have hd := String.ext_iff.mp h
  rw [String.data_append, String.data_append, String.data_append, String.data_append] at hd
  exact String.ext_iff.mpr (List.append_cancel_left (List.append_cancel_right hd))

theorem length_pos_of_truthy {o : Option String} (h : truthyS o = true) :
    decide ((o.getD "").length > 0) = true := by
  cases o with
  | none => simp [truthyS] at h
  | some s =>
    simp only [truthyS, bne_iff_ne, ne_eq] at h
    simp only [Option.getD, decide_eq_true_eq]
    have hdata : s.data ≠ [] := fun hnil => h (String.ext_iff.mpr (by rw [hnil]))
    exact List.length_pos.mpr hdata

theorem replaceCharList_eq_flatMap (c : Char) (r : List Char) (l : List Char) :
    replaceCharList c r l = l.flatMap (fun a => if a = c then r else [a]) := by
  induction l with
  | nil => rfl
  | cons a as ih =>
    by_cases h : a = c
    · simp only [replaceCharList, if_pos h, List.flatMap_cons, ih]
    · simp only [replaceCharList, if_neg h, List.flatMap_cons, ih, List.singleton_append]

theorem replaceCharList_single_eq_map (c r : Char) (l : List Char) :
    replaceCharList c [r] l = l.map (fun a => if a = c then r else a) := by
  induction l with
  | nil => rfl
  | cons a as ih =>
    by_cases h : a = c
    · simp only [replaceCharList, if_pos h, List.map_cons, ih, List.singleton_append]
    · simp only [replaceCharList, if_neg h, List.map_cons, ih]

/-- C1: for every descriptor in which both `id` and the derived
`dataTestId` value are set (truthy), `generateLocators` returns a `css`
field equal to the id selector `#id` (the id branch is first in the css
chain) and a `playwright` field equal to the test-id selector
`page.getByTestId('...')` (highest priority in the playwright chain),
regardless of `id` being present. -/
theorem C1_css_id_playwright_testid (d : ElementDescriptor)
    (hid : d.id ≠ "") (hdt : truthyS (dataTestIdOf d) = true) :
    (generateLocators d).css = "#" ++ d.id ∧
    (generateLocators d).playwright =
      "page.getByTestId('" ++ (dataTestIdOf d).getD "" ++ "')" := by
  constructor
  · show cssOf d = _
    unfold cssOf
    rw [if_pos (bne_iff_ne.mpr hid)]
  · show playwrightOf d = _
    unfold playwrightOf
    rw [if_pos hdt]

theorem C1_witness :
    ({ emptyDiv with id := "x", dataTestIdAttr := some "t" } : ElementDescriptor).id ≠ "" ∧
    truthyS (dataTestIdOf { emptyDiv with id := "x", dataTestIdAttr := some "t" }) = true ∧
    (generateLocators { emptyDiv with id := "x", dataTestIdAttr := some "t" }).css = "#x" ∧
    (generateLocators { emptyDiv with id := "x", dataTestIdAttr := some "t" }).playwright =
      "page.getByTestId('t')" := by
  refine ⟨by decide, rfl, ?_, ?_⟩
  · exact (C1_css_id_playwright_testid
      { emptyDiv with id := "x", dataTestIdAttr := some "t" } (by decide) (by decide)).1
  · exact (C1_css_id_playwright_testid
      { emptyDiv with id := "x", dataTestIdAttr := some "t" } (by decide) (by decide)).2

/-- C2: for every descriptor with a non-empty `tagName`, `generateLocators`
returns a record whose `playwright`, `css` and `xpath` fields are all
non-empty strings; every priority chain ends in an unconditional fallback,
so the function is total and never fails. -/
theorem C2_totality (d : ElementDescriptor) (h : d.tagName ≠ "") :
    (generateLocators d).playwright ≠ "" ∧ (generateLocators d).css ≠ "" ∧
    (generateLocators d).xpath ≠ "" := by
  have htag : tagOf d ≠ "" := by
    intro hc
    apply h
    have hd0 : d.tagName.data.map Char.toLower = [] := String.ext_iff.mp hc
    exact (str_eq_empty_iff _).mpr (List.map_eq_nil_iff.mp hd0)
  refine ⟨?_, ?_, ?_⟩
  · show playwrightOf d ≠ ""
    unfold playwrightOf
    split_ifs <;> (repeat apply append_ne_empty_left) <;> first | exact htag | decide
  · show cssOf d ≠ ""
    unfold cssOf
    split_ifs <;> (repeat apply append_ne_empty_left) <;> first | exact htag | decide
  · show xpathOf d ≠ ""
    unfold xpathOf
    split_ifs <;> (repeat apply append_ne_empty_left) <;> first | exact htag | decide

theorem C2_witness :
    (emptyDiv.tagName ≠ "") ∧
    (generateLocators emptyDiv).playwright ≠ "" ∧
    (generateLocators emptyDiv).css ≠ "" ∧ (generateLocators emptyDiv).xpath ≠ "" := by
  have h := C2_totality emptyDiv (by decide)
  exact ⟨by decide, h.1, h.2.1, h.2.2⟩

/-- C4: `escape` replaces each single-quote by backslash + quote, turns
each newline into a single space and trims both ends (it agrees with the
spec-worded `escapeSpec` on every string); in particular a `text` value
`O'Brien\nRow2` yields the playwright text-selector
`page.getByText('O\'Brien Row2')`. -/
theorem C4_escape_behaviour :
    (∀ s : String, escape s = escapeSpec s) ∧
    escape "O'Brien\nRow2" = "O\\'Brien Row2" ∧
    (generateLocators { emptyDiv with innerText := some "O'Brien\nRow2" }).playwright =
      "page.getByText('O\\'Brien Row2')" := by
  refine ⟨?_, rfl, rfl⟩
  intro s
  unfold escape escapeSpec
  rw [replaceCharList_single_eq_map, replaceCharList_eq_flatMap]

/-- C5: `inferRole` follows the static tables:
`inferRole("input","checkbox") = "checkbox"`; any truthy input type not in
the nested table defaults to `"textbox"` (e.g. `"unknown-type"`); and any
tag absent from the outer table yields null (e.g. `inferRole("div")`). -/
theorem C5_inferRole_table :
    inferRole "input" (some "checkbox") = RoleResult.str "checkbox" ∧
    inferRole "input" (some "unknown-type") = RoleResult.str "textbox" ∧
    inferRole "div" none = RoleResult.null ∧
    (∀ ty : String, ty ≠ "" → inputRoleList.lookup ty = none →
      inferRole "input" (some ty) = RoleResult.str "textbox") ∧
    (∀ (tag : String) (ty : Option String), roleMapList.lookup (lowerTag tag) = none →
      inferRole tag ty = RoleResult.null) := by
  refine ⟨by decide, by decide, by decide, ?_, ?_⟩
  · intro ty hty hlook
    unfold inferRole
    have hc : (lowerTag "input" == "input" && truthyS (some ty)) = true := by
      simp only [truthyS, Bool.and_eq_true, beq_iff_eq, bne_iff_ne, ne_eq]
      exact ⟨by decide, hty⟩
    rw [if_pos hc]
    show (match inputRoleList.lookup ty with
          | some r => RoleResult.str r
          | none => RoleResult.str "textbox") = RoleResult.str "textbox"
    rw [hlook]
  · intro tag ty hlook
    unfold inferRole
    have hne : (lowerTag tag == "input") = false := by
      by_cases hq : lowerTag tag = "input"
      · rw [hq] at hlook
        exact absurd hlook (by decide)
      · simp [hq]
    have hc : (lowerTag tag == "input" && truthyS ty) = false := by
      rw [hne]
      rfl
    rw [if_neg (by simp [hc])]
    show (match roleMapList.lookup (lowerTag tag) with
          | some (RoleMapEntry.str s) => RoleResult.str s
          | some RoleMapEntry.table => RoleResult.table
          | none => RoleResult.null) = RoleResult.null
    rw [hlook]

theorem C5_witness :
    inferRole "input" (some "zzz") = RoleResult.str "textbox" ∧
    inferRole "span" none = RoleResult.null :=
  ⟨C5_inferRole_table.2.2.2.1 "zzz" (by decide) (by decide),
   C5_inferRole_table.2.2.2.2 "span" none (by decide)⟩

/-- C6: for a `div` descriptor with no id, test-id, name, placeholder or
text and class list `["card","active"]`, every chain reaches its final
fallback: `css = "div.card.active"`, `playwright = "div.card.active"`,
`xpath = "//div[@class='card active']"`. -/
theorem C6_fallback_chain :
    (generateLocators { emptyDiv with classList := ["card", "active"] }).css =
      "div.card.active" ∧
    (generateLocators { emptyDiv with classList := ["card", "active"] }).playwright =
      "div.card.active" ∧
    (generateLocators { emptyDiv with classList := ["card", "active"] }).xpath =
      "//div[@class='card active']" :=
  ⟨rfl, rfl, rfl⟩

theorem cssOf_name_branch (d : ElementDescriptor)
    (hid : d.id = "") (h1 : d.dataTestIdAttr = none) (h2 : d.dataTestIdDashAttr = none)
    (hn : truthyS d.name = true) :
    cssOf d = tagOf d ++ "[name=\"" ++ d.name.getD "" ++ "\"]" := by
  have hdt : truthyS (dataTestIdOf d) = false := by
    simp [dataTestIdOf, jsOrS, truthyS, h1, h2]
  unfold cssOf
  rw [if_neg (by simp [hid]), if_neg (by simp [hdt]), if_neg (by simp [h2, truthyS]), if_pos hn]

/-- C3 counterexample: the test-id value interpolated into the
`playwright` output is NOT passed through `escape` — a descriptor with
`data-testid = "a'b"` yields the raw literal `page.getByTestId('a'b')`,
not the escaped `page.getByTestId('a\'b')`. -/
theorem C3_counterexample :
    (generateLocators { emptyDiv with dataTestIdAttr := some "a'b" }).playwright =
      "page.getByTestId('a'b')" ∧
    (generateLocators { emptyDiv with dataTestIdAttr := some "a'b" }).playwright ≠
      "page.getByTestId('" ++ escape "a'b" ++ "')" ∧
    escape "a'b" = "a\\'b" := by
  refine ⟨rfl, ?_, rfl⟩
  decide

/-- C3 (amended): in the `playwright` chain, `escape` is applied to the
placeholder value (and likewise to the role-name, label and text values),
but the test-id value is interpolated raw; in the `xpath` chain `escape`
is applied only to the text value while the placeholder value is raw; the
`css` output is built from raw attribute values with no escaping. -/
theorem C3_escape_application :
    (∀ d : ElementDescriptor, truthyS d.dataTestIdAttr = true →
      (generateLocators d).playwright =
        "page.getByTestId('" ++ d.dataTestIdAttr.getD "" ++ "')") ∧
    (∀ d : ElementDescriptor,
      d.dataTestIdAttr = none → d.dataTestIdDashAttr = none → d.ariaLabel = none →
      d.labelText = none → d.innerText = none → truthyS d.placeholder = true →
      (generateLocators d).playwright =
        "page.getByPlaceholder('" ++ escape (d.placeholder.getD "") ++ "')") ∧
    (∀ d : ElementDescriptor,
      d.id = "" → d.dataTestIdAttr = none → d.dataTestIdDashAttr = none →
      truthyS (textVal d) = true →
      (generateLocators d).xpath =
        "//" ++ tagOf d ++ "[contains(text(), '" ++ escape ((textVal d).getD "") ++ "')]") ∧
    (∀ d : ElementDescriptor,
      d.id = "" → d.dataTestIdAttr = none → d.dataTestIdDashAttr = none →
      d.innerText = none → truthyS d.placeholder = true →
      (generateLocators d).xpath =
        "//" ++ tagOf d ++ "[@placeholder='" ++ d.placeholder.getD "" ++ "']") ∧
    (∀ d : ElementDescriptor,
      d.id = "" → d.dataTestIdAttr = none → d.dataTestIdDashAttr = none →
      d.name = none → truthyS d.placeholder = true →
      (generateLocators d).css =
        tagOf d ++ "[placeholder=\"" ++ d.placeholder.getD "" ++ "\"]") := by
  refine ⟨?_, ?_, ?_, ?_, ?_⟩
  · intro d h
    show playwrightOf d = _
    have hv : dataTestIdOf d = d.dataTestIdAttr := by simp [dataTestIdOf, jsOrS, h]
    have hdt : truthyS (dataTestIdOf d) = true := by rw [hv]; exact h
    unfold playwrightOf
    rw [if_pos hdt, hv]
  · intro d h1 h2 h3 h4 h5 h6
    show playwrightOf d = _
    have hdt : truthyS (dataTestIdOf d) = false := by
      simp [dataTestIdOf, jsOrS, truthyS, h1, h2]
    have ha : accNameOf d = none := by
      simp [accNameOf, jsOrS, truthyS, textVal, h3, h4, h5]
    unfold playwrightOf
    rw [if_neg (by simp [hdt]), if_neg (by simp [ha, truthyS]),
        if_neg (by simp [h4, truthyS]), if_pos h6]
  · intro d hid h1 h2 htx
    show xpathOf d = _
    have hdt : truthyS (dataTestIdOf d) = false := by
      simp [dataTestIdOf, jsOrS, truthyS, h1, h2]
    unfold xpathOf
    rw [if_neg (by simp [hid]), if_neg (by simp [hdt]), if_neg (by simp [h2, truthyS]),
        if_pos (by rw [htx, length_pos_of_truthy htx]; rfl)]
  · intro d hid h1 h2 h3 h5
    show xpathOf d = _
    have hdt : truthyS (dataTestIdOf d) = false := by
      simp [dataTestIdOf, jsOrS, truthyS, h1, h2]
    have ht : textVal d = none := by simp [textVal, h3]
    unfold xpathOf
    rw [if_neg (by simp [hid]), if_neg (by simp [hdt]), if_neg (by simp [h2, truthyS]),
        if_neg (by simp [ht, truthyS]), if_pos h5]
  · intro d hid h1 h2 h3 h5
    show cssOf d = _
    have hdt : truthyS (dataTestIdOf d) = false := by
      simp [dataTestIdOf, jsOrS, truthyS, h1, h2]
    unfold cssOf
    rw [if_neg (by simp [hid]), if_neg (by simp [hdt]), if_neg (by simp [h2, truthyS]),
        if_neg (by simp [h3, truthyS]), if_pos h5]

theorem C3_escape_application_witness :
    (generateLocators { emptyDiv with dataTestIdAttr := some "t" }).playwright =
      "page.getByTestId('t')" ∧
    (generateLocators { emptyDiv with placeholder := some "p'q" }).playwright =
      "page.getByPlaceholder('" ++ escape "p'q" ++ "')" ∧
    (generateLocators { emptyDiv with innerText := some "txt" }).xpath =
      "//div[contains(text(), 'txt')]" ∧
    (generateLocators { emptyDiv with placeholder := some "p" }).xpath =
      "//div[@placeholder='p']" ∧
    (generateLocators { emptyDiv with placeholder := some "p" }).css =
      "div[placeholder=\"p\"]" :=
  ⟨C3_escape_application.1 { emptyDiv with dataTestIdAttr := some "t" } (by decide),
   C3_escape_application.2.1 { emptyDiv with placeholder := some "p'q" }
     rfl rfl rfl rfl rfl (by decide),
   C3_escape_application.2.2.1 { emptyDiv with innerText := some "txt" }
     rfl rfl rfl (by decide),
   C3_escape_application.2.2.2.1 { emptyDiv with placeholder := some "p" }
     rfl rfl rfl rfl (by decide),
   C3_escape_application.2.2.2.2 { emptyDiv with placeholder := some "p" }
     rfl rfl rfl rfl (by decide)⟩

/-- C7 counterexample: with `id` absent and `dataTestId` present (the
playwright chain satisfied by its highest-priority branch), changing only
`name` does NOT change the `css` output — the css chain also takes its
test-id branch, so both descriptors get the same css selector. -/
theorem C7_counterexample :
    ({ emptyDiv with dataTestIdAttr := some "x", name := some "a" } : ElementDescriptor).name ≠
      ({ emptyDiv with dataTestIdAttr := some "x", name := some "b" } : ElementDescriptor).name ∧
    ({ emptyDiv with dataTestIdAttr := some "x", name := some "a" } : ElementDescriptor).id = "" ∧
    truthyS (dataTestIdOf { emptyDiv with dataTestIdAttr := some "x", name := some "a" }) = true ∧
    (generateLocators { emptyDiv with dataTestIdAttr := some "x", name := some "a" }).css =
      (generateLocators { emptyDiv with dataTestIdAttr := some "x", name := some "b" }).css ∧
    (generateLocators { emptyDiv with dataTestIdAttr := some "x", name := some "a" }).playwright =
      (generateLocators { emptyDiv with dataTestIdAttr := some "x", name := some "b" }).playwright := by
  exact ⟨by decide, rfl, rfl, rfl, rfl⟩

/-- C7 (amended): for two descriptors that differ only in `name`, the
`playwright` output never changes (the playwright chain does not read
`name` at all); the `css` outputs differ exactly when the css chain
reaches its name branch, i.e. when `id` and both test-id attributes are
absent and the two name values are truthy and distinct. -/
theorem C7_name_independence (d : ElementDescriptor) (n1 n2 : String)
    (hid : d.id = "") (h1 : d.dataTestIdAttr = none) (h2 : d.dataTestIdDashAttr = none)
    (hn1 : n1 ≠ "") (hn2 : n2 ≠ "") (hne : n1 ≠ n2) :
    (generateLocators { d with name := some n1 }).css ≠
      (generateLocators { d with name := some n2 }).css ∧
    (generateLocators { d with name := some n1 }).playwright =
      (generateLocators { d with name := some n2 }).playwright := by
  constructor
  · have e1 : cssOf { d with name := some n1 } = tagOf d ++ "[name=\"" ++ n1 ++ "\"]" :=
      cssOf_name_branch { d with name := some n1 } hid h1 h2
        (by show truthyS (some n1) = true; simp [truthyS, hn1])
    have e2 : cssOf { d with name := some n2 } = tagOf d ++ "[name=\"" ++ n2 ++ "\"]" :=
      cssOf_name_branch { d with name := some n2 } hid h1 h2
        (by show truthyS (some n2) = true; simp [truthyS, hn2])
    show cssOf _ ≠ cssOf _
    rw [e1, e2]
    intro heq
    exact hne (wrap_inj heq)
  · rfl

theorem C7_name_independence_witness :
    (generateLocators { emptyDiv with name := some "a" }).css ≠
      (generateLocators { emptyDiv with name := some "b" }).css ∧
    (generateLocators { emptyDiv with name := some "a" }).playwright =
      (generateLocators { emptyDiv with name := some "b" }).playwright :=
  C7_name_independence emptyDiv "a" "b" rfl rfl rfl (by decide) (by decide) (by decide)

/-- C8: the two `LocatorGenerator` variants in the source file compute the
same playwright selector: the first variant's `generateLocators(el).playwright`
equals the second variant's `generateLocator(el)` for every descriptor. -/
theorem C8_variants_agree (d : ElementDescriptor) :
    (generateLocators d).playwright = generateLocator d := by
  show playwrightOf d = generateLocator d
  by_cases h : truthyS (accNameOf d) = true
  · simp [playwrightOf, generateLocator, escapedTextOf, h]
  · simp only [Bool.not_eq_true] at h
    simp [playwrightOf, generateLocator, escapedTextOf, h]

/-- C9: for every descriptor, the `xpath` field returned by
`generateLocators` begins with the prefix `//` — the default value and
every branch of the xpath chain produce a string whose first two
characters are `/` `/`. -/
theorem C9_xpath_doubleslash (d : ElementDescriptor) :
    ((generateLocators d).xpath).data.take 2 = ['/', '/'] := by
  show (xpathOf d).data.take 2 = _
  unfold xpathOf
  split_ifs <;> rfl

/-- C10: `inferRole("input")` with the type argument absent or empty
returns the entire nested input role-table object (a truthy value that is
neither null nor any role string), despite the declared return type. -/
theorem C10_inferRole_input_table :
    inferRole "input" none = RoleResult.table ∧
    inferRole "input" (some "") = RoleResult.table ∧
    RoleResult.table ≠ RoleResult.null ∧
    (∀ s : String, RoleResult.table ≠ RoleResult.str s) ∧
    RoleResult.truthy RoleResult.table = true := by
  refine ⟨by decide, by decide, by decide, ?_, rfl⟩
  intro s h
  exact RoleResult.noConfusion h

theorem C10_witness : RoleResult.table ≠ RoleResult.str "textbox" :=
  C10_inferRole_input_table.2.2.2.1 "textbox"
